import Mathlib

/-
Verification of the provisioning API of mautrix-discord
(`bridge/provisioning.go`), focusing on the login orchestrator, the
auth middleware and the command handlers.

The login handler multiplexes three event sources (a qr-code channel, a
completion channel and a cancellation context) with a `select` loop.  We
embed it as a deterministic function over an explicit list of observed
events, following the event-enum view {CodeReceived, CodeChannelClosed,
Completed, Cancelled}.  External collaborators (`remoteauth` client,
`User` session methods) are not part of the file under verification;
their results are supplied through an environment record.
-/

namespace Provisioning

/-- External identity returned by the remote-auth client on completion:
`client.Result()` yields a Discord user id and a credential token. -/
structure DiscordUser where
  userID : String
  token : String
deriving DecidableEq

/-- Authentication-relevant state of the caller's session object (`*User`):
the fields the provisioning handlers read and write.  `sessionNil` models
`user.Session == nil`; `updated` records whether `user.Update()` was
called (persisting the identity field). -/
structure UserState where
  loggedIn : Bool
  connected : Bool
  sessionNil : Bool
  id : String
  updated : Bool
deriving DecidableEq

/-- Results of the external collaborator calls made by the `login` handler:
`remoteauth.New()` (`newErr`), `client.Dial(...)` (`dialErr`),
`client.Result()` (`result`) and `user.Login(token)` (`loginErr`). -/
structure LoginEnv where
  newErr : Bool
  dialErr : Bool
  result : Except String DiscordUser
  loginErr : Option String

/-- Messages written to the peer over the websocket (`c.WriteJSON`
payloads): the repeatable `{code, timeout}` message, the terminal
`{success:false, error, errcode}` message and the terminal
`{success:true, id}` message. -/
inductive Message
| codeMsg (code : String) (timeout : Nat)
| failureMsg (error errcode : String)
| successMsg (id : String)
deriving DecidableEq

/-- Events the select loop in `login` can observe: a value received from
the qr channel, a read from the closed qr channel (`ok == false`), the
completion channel firing, and the cancellation context firing. -/
inductive Event
| qrCode (code : String)
| qrClosed
| done
| cancelled
deriving DecidableEq

/-- Terminal outcome of a handshake; `running` marks a state in which no
further event was observed, where the Go loop stays blocked in the
`select` and the handler has not returned. -/
inductive Outcome
| succeeded
| failed (cause : String)
| cancelled
| running
deriving DecidableEq

/-- A handshake outcome is terminal when the handler function returns. -/
def Outcome.isTerminal : Outcome → Bool
  | .running => false
  | _ => true

/-- Result of the select loop: the messages written to the peer, the
outcome, and the session state when the loop stops. -/
structure LoopResult where
  msgs : List Message
  outcome : Outcome
  user : UserState
deriving DecidableEq

/-- The select loop of `login` (provisioning.go:318-364), one case per
observed event:
* a qr code received → write `{code, timeout: 120}` and loop;
* qr channel closed (`!ok`) → `continue`;
* completion channel fires → `client.Result()`: on error write the
  "connection error" failure and return; on success commit the identity
  (`user.ID = discordUser.UserID; user.Update()`), then `user.Login`:
  on error write the "connection error" failure and return, else write
  `{success: true, id: user.ID}` and return;
* `ctx.Done()` → return with nothing written. -/
def loginLoop (env : LoginEnv) (user : UserState) : List Event → LoopResult
  | [] => ⟨[], .running, user⟩
  | .qrCode c :: rest =>
    let r := loginLoop env user rest
    ⟨.codeMsg c 120 :: r.msgs, r.outcome, r.user⟩
  | .qrClosed :: rest => loginLoop env user rest
  | .done :: _ =>
    match env.result with
    | .error _ =>
      ⟨[.failureMsg "Failed to connect to Discord" "connection error"],
        .failed "connection error", user⟩
    | .ok du =>
      let u1 : UserState := { user with id := du.userID, updated := true }
      match env.loginErr with
      | some _ =>
        ⟨[.failureMsg "Failed to connect to Discord" "connection error"],
          .failed "connection error", u1⟩
      | none => ⟨[.successMsg u1.id], .succeeded, u1⟩
  | .cancelled :: _ => ⟨[], .cancelled, user⟩

/-- Observable result of one run of the `login` handler after a
successful upgrade: messages sent, outcome, final session state, whether
the two channels were closed by the fast-fail path, whether the deferred
`c.Close()` ran (it runs exactly when the handler returns), and whether
`client.Dial` was invoked. -/
structure LoginResult where
  messages : List Message
  outcome : Outcome
  user : UserState
  qrChanClosed : Bool
  doneChanClosed : Bool
  connClosed : Bool
  dialAttempted : Bool
deriving DecidableEq

/-- The `login` handler (provisioning.go:252-365) after a successful
upgrade.  If `user.LoggedIn()`, it writes the "already logged in"
failure and returns without dialing.  Otherwise, a `remoteauth.New()`
error writes a "connection error" failure (and, lacking a `return`,
execution continues); `client.Dial` is invoked, and on a synchronous
dial error both channels are closed before the loop is entered.  The
deferred `c.Close()` runs on every return path. -/
def login (env : LoginEnv) (user : UserState) (events : List Event) : LoginResult :=
  if user.loggedIn then
    { messages := [.failureMsg "You're already logged into Discord" "already logged in"]
      outcome := .failed "already logged in"
      user := user
      qrChanClosed := false
      doneChanClosed := false
      connClosed := true
      dialAttempted := false }
  else
    let pre : List Message :=
      if env.newErr then [.failureMsg "Failed to connect to Discord" "connection error"]
      else []
    let r := loginLoop env user events
    { messages := pre ++ r.msgs
      outcome := r.outcome
      user := r.user
      qrChanClosed := env.dialErr
      doneChanClosed := env.dialErr
      connClosed := r.outcome.isTerminal
      dialAttempted := true }

/-- The code messages produced by a list of events, for stating which
messages a prefix of the handshake contributes. -/
def codeMessages : List Event → List Message
  | [] => []
  | .qrCode c :: rest => .codeMsg c 120 :: codeMessages rest
  | _ :: rest => codeMessages rest

/-- Whether a `client.Result()` value is an error. -/
def isErr : Except String DiscordUser → Bool
  | .error _ => true
  | .ok _ => false

/-- Modelled from the spec: the `remoteauth` client lives in this
repository but outside the file under verification, so `Result()` is not
available here.  The spec's fast-fail path says that after a synchronous
`Dial` error the machine proceeds to `Failed` with cause
"connection error", i.e. `Result()` reports an error when `Dial`
failed. -/
def resultReflectsDial (env : LoginEnv) : Prop :=
  env.dialErr = true → isErr env.result = true

end Provisioning

namespace Provisioning

/-- C9: during the wait, a read from the closed code channel is a no-op
continuation: the loop re-enters the wait with no message written and no
termination on that event (with no further event the loop is still
running). -/
theorem c9_qr_closed_noop (env : LoginEnv) (u : UserState) (evs : List Event) :
    loginLoop env u (Event.qrClosed :: evs) = loginLoop env u evs ∧
      (loginLoop env u [Event.qrClosed]).outcome = Outcome.running :=
  ⟨rfl, rfl⟩

/-- C2 (amended): if the caller's session satisfies `LoggedIn()`, no dial
is attempted, the handshake terminates immediately with a `Failed`
outcome whose cause is the errcode "already logged in", the peer
receives exactly one failure message, the connection is closed and the
session is unchanged. -/
theorem c2_already_logged_in (env : LoginEnv) (u : UserState) (evs : List Event)
    (h : u.loggedIn = true) :
    (login env u evs).dialAttempted = false ∧
      (login env u evs).messages =
        [Message.failureMsg "You're already logged into Discord" "already logged in"] ∧
      (login env u evs).outcome = Outcome.failed "already logged in" ∧
      (login env u evs).connClosed = true ∧
      (login env u evs).user = u := by
  simp [login, h]

theorem c2_witness :
    (login ⟨false, false, Except.error "e", none⟩
        ⟨true, false, false, "", false⟩ []).dialAttempted = false ∧
      (login ⟨false, false, Except.error "e", none⟩
          ⟨true, false, false, "", false⟩ []).messages =
        [Message.failureMsg "You're already logged into Discord" "already logged in"] ∧
      (login ⟨false, false, Except.error "e", none⟩
          ⟨true, false, false, "", false⟩ []).outcome =
        Outcome.failed "already logged in" ∧
      (login ⟨false, false, Except.error "e", none⟩
          ⟨true, false, false, "", false⟩ []).connClosed = true ∧
      (login ⟨false, false, Except.error "e", none⟩
          ⟨true, false, false, "", false⟩ []).user =
        ⟨true, false, false, "", false⟩ :=
  c2_already_logged_in ⟨false, false, Except.error "e", none⟩
    ⟨true, false, false, "", false⟩ [] rfl

/-- C2 as frozen is false on the code: in the already-logged-in branch
the failure cause (errcode) is "already logged in", not
"already authenticated". -/
theorem c2_counterexample :
    (login ⟨false, false, Except.error "e", none⟩
        ⟨true, false, false, "", false⟩ []).outcome ≠
      Outcome.failed "already authenticated" ∧
      (login ⟨false, false, Except.error "e", none⟩
          ⟨true, false, false, "", false⟩ []).messages =
        [Message.failureMsg "You're already logged into Discord" "already logged in"] := by
  constructor
  · decide
  · rfl

theorem loginLoop_closed_chans (env : LoginEnv) (u : UserState) (evs : List Event)
    (hres : isErr env.result = true)
    (hall : ∀ e ∈ evs, e = Event.qrClosed ∨ e = Event.done)
    (hdone : Event.done ∈ evs) :
    loginLoop env u evs =
      ⟨[Message.failureMsg "Failed to connect to Discord" "connection error"],
        Outcome.failed "connection error", u⟩ := by
  induction evs with
  | nil => cases hdone
  | cons e rest ih =>
    rcases hall e (List.mem_cons_self ..) with h | h
    · subst h
      have hdone2 : Event.done ∈ rest := by
        cases hdone with
        | tail _ h2 => exact h2
      rw [show loginLoop env u (Event.qrClosed :: rest) = loginLoop env u rest from rfl]
      exact ih (fun x hx => hall x (List.mem_cons_of_mem _ hx)) hdone2
    · subst h
      cases hr : env.result with
      | error msg => simp [loginLoop, hr]
      | ok du => rw [hr] at hres; simp [isErr] at hres

/-- C1: if `client.Dial` errors synchronously (with `remoteauth.New`
succeeding and the peer not cancelling), both channels are closed
immediately, and on termination the peer has received exactly one
failure message with errcode "connection error" and no code messages,
with the handshake `Failed` with that cause. -/
theorem c1_dial_error_fast_fail (env : LoginEnv) (u : UserState) (evs : List Event)
    (hlog : u.loggedIn = false) (hnew : env.newErr = false)
    (hdial : env.dialErr = true) (hres : resultReflectsDial env)
    (hall : ∀ e ∈ evs, e = Event.qrClosed ∨ e = Event.done)
    (hdone : Event.done ∈ evs) :
    (login env u evs).qrChanClosed = true ∧
      (login env u evs).doneChanClosed = true ∧
      (login env u evs).messages =
        [Message.failureMsg "Failed to connect to Discord" "connection error"] ∧
      (login env u evs).outcome = Outcome.failed "connection error" := by
  have h := loginLoop_closed_chans env u evs (hres hdial) hall hdone
  simp [login, hlog, hnew, hdial, h, Outcome.isTerminal]

theorem c1_witness :
    (login ⟨false, true, Except.error "dial failed", none⟩
        ⟨false, false, false, "", false⟩ [Event.qrClosed, Event.done]).qrChanClosed = true ∧
      (login ⟨false, true, Except.error "dial failed", none⟩
          ⟨false, false, false, "", false⟩ [Event.qrClosed, Event.done]).doneChanClosed = true ∧
      (login ⟨false, true, Except.error "dial failed", none⟩
          ⟨false, false, false, "", false⟩ [Event.qrClosed, Event.done]).messages =
        [Message.failureMsg "Failed to connect to Discord" "connection error"] ∧
      (login ⟨false, true, Except.error "dial failed", none⟩
          ⟨false, false, false, "", false⟩ [Event.qrClosed, Event.done]).outcome =
        Outcome.failed "connection error" :=
  c1_dial_error_fast_fail ⟨false, true, Except.error "dial failed", none⟩
    ⟨false, false, false, "", false⟩ [Event.qrClosed, Event.done]
    rfl rfl rfl (fun _ => rfl) (by decide) (by decide)

theorem loginLoop_success (env : LoginEnv) (du : DiscordUser)
    (hres : env.result = Except.ok du) (hlog : env.loginErr = none)
    (u : UserState) (codes : List String) :
    loginLoop env u (codes.map Event.qrCode ++ [Event.done]) =
      ⟨codes.map (fun c => Message.codeMsg c 120) ++ [Message.successMsg du.userID],
        Outcome.succeeded, { u with id := du.userID, updated := true }⟩ := by
  induction codes with
  | nil => simp [loginLoop, hres, hlog]
  | cons c cs ih => simp [loginLoop, ih]

/-- C3: for every sequence of delivery-code events followed by a
successful completion, the peer receives one `{code, timeout}` message
per code in emission order, strictly followed by exactly one success
message carrying the committed external identity, with nothing after it,
and the identity is committed (and persisted) on the session. -/
theorem c3_codes_then_success (env : LoginEnv) (u : UserState) (du : DiscordUser)
    (codes : List String)
    (hlog : u.loggedIn = false) (hnew : env.newErr = false)
    (hres : env.result = Except.ok du) (hloginok : env.loginErr = none) :
    (login env u (codes.map Event.qrCode ++ [Event.done])).messages =
        codes.map (fun c => Message.codeMsg c 120) ++ [Message.successMsg du.userID] ∧
      (login env u (codes.map Event.qrCode ++ [Event.done])).outcome =
        Outcome.succeeded ∧
      (login env u (codes.map Event.qrCode ++ [Event.done])).user =
        { u with id := du.userID, updated := true } := by
  have h := loginLoop_success env du hres hloginok u codes
  simp [login, hlog, hnew, h, Outcome.isTerminal]

theorem c3_witness :
    (login ⟨false, false, Except.ok ⟨"discorduser#1", "tok"⟩, none⟩
        ⟨false, false, false, "", false⟩
        (["XQR1"].map Event.qrCode ++ [Event.done])).messages =
        ["XQR1"].map (fun c => Message.codeMsg c 120) ++
          [Message.successMsg "discorduser#1"] ∧
      (login ⟨false, false, Except.ok ⟨"discorduser#1", "tok"⟩, none⟩
          ⟨false, false, false, "", false⟩
          (["XQR1"].map Event.qrCode ++ [Event.done])).outcome = Outcome.succeeded ∧
      (login ⟨false, false, Except.ok ⟨"discorduser#1", "tok"⟩, none⟩
          ⟨false, false, false, "", false⟩
          (["XQR1"].map Event.qrCode ++ [Event.done])).user =
        ⟨false, false, false, "discorduser#1", true⟩ :=
  c3_codes_then_success ⟨false, false, Except.ok ⟨"discorduser#1", "tok"⟩, none⟩
    ⟨false, false, false, "", false⟩ ⟨"discorduser#1", "tok"⟩ ["XQR1"]
    rfl rfl rfl rfl

theorem loginLoop_cancel (env : LoginEnv) (u : UserState) (rest : List Event)
    (pre : List Event)
    (hpre : ∀ e ∈ pre, (∃ c, e = Event.qrCode c) ∨ e = Event.qrClosed) :
    loginLoop env u (pre ++ Event.cancelled :: rest) =
      ⟨codeMessages pre, Outcome.cancelled, u⟩ := by
  induction pre with
  | nil => simp [loginLoop, codeMessages]
  | cons e es ih =>
    have ih2 := ih (fun x hx => hpre x (List.mem_cons_of_mem _ hx))
    rcases hpre e (List.mem_cons_self ..) with ⟨c, rfl⟩ | rfl
    · simp [loginLoop, codeMessages, ih2]
    · simpa [loginLoop, codeMessages] using ih2

/-- C4: if the cancellation fires (peer closed the connection) before a
completion event, the handshake transitions to `Cancelled` and returns,
no message beyond the pre-cancellation code messages is sent, and the
session's authentication state is unchanged. -/
theorem c4_peer_close_cancels (env : LoginEnv) (u : UserState)
    (pre rest : List Event)
    (hlog : u.loggedIn = false) (hnew : env.newErr = false)
    (hpre : ∀ e ∈ pre, (∃ c, e = Event.qrCode c) ∨ e = Event.qrClosed) :
    (login env u (pre ++ Event.cancelled :: rest)).outcome = Outcome.cancelled ∧
      (login env u (pre ++ Event.cancelled :: rest)).messages = codeMessages pre ∧
      (login env u (pre ++ Event.cancelled :: rest)).user = u := by
  have h := loginLoop_cancel env u rest pre hpre
  simp [login, hlog, hnew, h, Outcome.isTerminal]

theorem c4_witness :
    (login ⟨false, false, Except.ok ⟨"i", "t"⟩, none⟩
        ⟨false, false, false, "", false⟩
        ([Event.qrCode "A"] ++ Event.cancelled :: [])).outcome = Outcome.cancelled ∧
      (login ⟨false, false, Except.ok ⟨"i", "t"⟩, none⟩
          ⟨false, false, false, "", false⟩
          ([Event.qrCode "A"] ++ Event.cancelled :: [])).messages =
        codeMessages [Event.qrCode "A"] ∧
      (login ⟨false, false, Except.ok ⟨"i", "t"⟩, none⟩
          ⟨false, false, false, "", false⟩
          ([Event.qrCode "A"] ++ Event.cancelled :: [])).user =
        ⟨false, false, false, "", false⟩ :=
  c4_peer_close_cancels ⟨false, false, Except.ok ⟨"i", "t"⟩, none⟩
    ⟨false, false, false, "", false⟩ [Event.qrCode "A"] []
    rfl rfl (by intro e he; cases he with
              | head => exact Or.inl ⟨"A", rfl⟩
              | tail _ h2 => cases h2)

/-- C6: on every exit path of the login handler after a successful
upgrade (the handler returns, i.e. the outcome is terminal), the
deferred close runs and the websocket connection is closed. -/
theorem c6_conn_closed_on_exit (env : LoginEnv) (u : UserState) (evs : List Event)
    (h : (login env u evs).outcome ≠ Outcome.running) :
    (login env u evs).connClosed = true := by
  by_cases hl : u.loggedIn
  · simp [login, hl]
  · simp only [login, hl, if_false, Bool.false_eq_true] at h ⊢
    cases ho : (loginLoop env u evs).outcome <;>
      simp [ho, Outcome.isTerminal] at h ⊢

theorem c6_witness :
    (login ⟨false, false, Except.error "e", none⟩
        ⟨false, false, false, "", false⟩ [Event.cancelled]).connClosed = true :=
  c6_conn_closed_on_exit ⟨false, false, Except.error "e", none⟩
    ⟨false, false, false, "", false⟩ [Event.cancelled] (by decide)

/-- JSON body of a command-handler response: the `Response` struct
`{success: true, status}` or the `Error` struct
`{success: false, error, errcode}`. -/
inductive RespBody
| ok (status : String)
| err (error errcode : String)
deriving DecidableEq

/-- Result of one command-handler run: HTTP status, JSON body, the
session state afterwards, and how many times each collaborator
operation (`user.Disconnect`, `user.Connect`, `user.Logout`) was
invoked. -/
structure HandlerResult where
  status : Nat
  body : RespBody
  user : UserState
  disconnectCalls : Nat
  connectCalls : Nat
  logoutCalls : Nat
deriving DecidableEq

/-- Outcomes and state effects of the session collaborator operations,
which live outside the file under verification: whether
`user.Disconnect()` / `user.Connect()` error, what `user.Logout()`
returns, and the session state each leaves behind when invoked. -/
structure SessionEnv where
  disconnectErr : Bool
  connectErr : Bool
  logoutErr : Option String
  afterDisconnect : UserState → UserState
  afterConnect : UserState → UserState
  afterLogout : UserState → UserState

/-- The `disconnect` handler (provisioning.go:150-173): 409 with the
"not connected" error when `!user.Connected()`; otherwise one call to
`user.Disconnect()`, mapped to 500 on error and 200 on success. -/
def disconnect (env : SessionEnv) (u : UserState) : HandlerResult :=
  if u.connected = false then
    ⟨409, .err "You're not connected to discord" "not connected", u, 0, 0, 0⟩
  else if env.disconnectErr then
    ⟨500, .err "Failed to disconnect from discord" "failed to disconnect",
      env.afterDisconnect u, 1, 0, 0⟩
  else
    ⟨200, .ok "Disconnected from Discord", env.afterDisconnect u, 1, 0, 0⟩

/-- The `reconnect` handler (provisioning.go:367-390): 409 with the
"already connected" error when `user.Connected()`; otherwise one call to
`user.Connect()`, mapped to 500 on error and 200 on success. -/
def reconnect (env : SessionEnv) (u : UserState) : HandlerResult :=
  if u.connected = true then
    ⟨409, .err "You're already connected to discord" "already connected", u, 0, 0, 0⟩
  else if env.connectErr then
    ⟨500, .err "Failed to connect to discord" "failed to connect",
      env.afterConnect u, 0, 1, 0⟩
  else
    ⟨200, .ok "Connected to Discord", env.afterConnect u, 0, 1, 0⟩

/-- ASCII-faithful model of Go's `strings.ToLower` as used on the
`force` query value (the only comparison is against the ASCII literal
"false"). -/
def goToLower (s : String) : String := ⟨s.data.map Char.toLower⟩

/-- The `force` flag of `logout`:
`strings.ToLower(r.URL.Query().Get("force")) != "false"`, where an
absent query parameter reads as the empty string. -/
def parseForce (q : Option String) : Bool := goToLower (q.getD "") != "false"

/-- The `logout` handler (provisioning.go:209-250): 404 when
`!user.LoggedIn()`; with a nil session, 200 when forced else 404;
otherwise one call to `user.Logout()`, and on error 500 with the error
details unless forced, in which case (as on success) 200 with the
success body. -/
def logout (env : SessionEnv) (u : UserState) (q : Option String) : HandlerResult :=
  let force := parseForce q
  if u.loggedIn = false then
    ⟨404, .err "You're not logged in" "not logged in", u, 0, 0, 0⟩
  else if u.sessionNil then
    if force then ⟨200, .ok "Logged out successfully.", u, 0, 0, 0⟩
    else ⟨404, .err "You're not logged in" "not logged in", u, 0, 0, 0⟩
  else
    match env.logoutErr with
    | some e =>
      if force = false then
        ⟨500, .err ("Unknown error while logging out: " ++ e) e,
          env.afterLogout u, 0, 0, 1⟩
      else ⟨200, .ok "Logged out successfully.", env.afterLogout u, 0, 0, 1⟩
    | none => ⟨200, .ok "Logged out successfully.", env.afterLogout u, 0, 0, 1⟩

/-- C7: disconnect on an already-disconnected session returns 409 and
leaves the session state untouched with no collaborator call; disconnect
on a connected session invokes `user.Disconnect()` exactly once; and
symmetrically reconnect on an already-connected session returns 409 with
no state change. -/
theorem c7_disconnect_reconnect_conflict (env : SessionEnv) (u : UserState) :
    (u.connected = false →
      disconnect env u =
        ⟨409, .err "You're not connected to discord" "not connected", u, 0, 0, 0⟩) ∧
      (u.connected = true → (disconnect env u).disconnectCalls = 1) ∧
      (u.connected = true →
        reconnect env u =
          ⟨409, .err "You're already connected to discord" "already connected",
            u, 0, 0, 0⟩) := by
  refine ⟨fun h => by simp [disconnect, h], fun h => ?_, fun h => by simp [reconnect, h]⟩
  by_cases he : env.disconnectErr <;> simp [disconnect, h, he]

theorem c7_witness :
    (disconnect ⟨false, false, none, id, id, id⟩ ⟨true, false, false, "", false⟩ =
        ⟨409, .err "You're not connected to discord" "not connected",
          ⟨true, false, false, "", false⟩, 0, 0, 0⟩) ∧
      (disconnect ⟨false, false, none, id, id, id⟩
          ⟨true, true, false, "", false⟩).disconnectCalls = 1 ∧
      (reconnect ⟨false, false, none, id, id, id⟩ ⟨true, true, false, "", false⟩ =
        ⟨409, .err "You're already connected to discord" "already connected",
          ⟨true, true, false, "", false⟩, 0, 0, 0⟩) :=
  ⟨(c7_disconnect_reconnect_conflict ⟨false, false, none, id, id, id⟩
      ⟨true, false, false, "", false⟩).1 rfl,
    (c7_disconnect_reconnect_conflict ⟨false, false, none, id, id, id⟩
      ⟨true, true, false, "", false⟩).2.1 rfl,
    (c7_disconnect_reconnect_conflict ⟨false, false, none, id, id, id⟩
      ⟨true, true, false, "", false⟩).2.2 rfl⟩

/-- C8: for a logged-in session (with a live session object) whose
`Logout()` returns an error, the response is 500 with the error details
unless `force` requests best-effort success, in which case it is 200
with the success body; and `force` defaults to true when the query
parameter is absent. -/
theorem c8_logout_force (env : SessionEnv) (u : UserState) (q : Option String)
    (e : String)
    (hlog : u.loggedIn = true) (hsess : u.sessionNil = false)
    (herr : env.logoutErr = some e) :
    (parseForce q = false →
      logout env u q =
        ⟨500, .err ("Unknown error while logging out: " ++ e) e,
          env.afterLogout u, 0, 0, 1⟩) ∧
      (parseForce q = true →
        logout env u q =
          ⟨200, .ok "Logged out successfully.", env.afterLogout u, 0, 0, 1⟩) ∧
      parseForce none = true := by
  refine ⟨fun hf => ?_, fun hf => ?_, rfl⟩ <;>
    simp [logout, hlog, hsess, herr, hf]

/-- The fixed protocol identifier `SecWebSocketProtocol` constant. -/
def SecWebSocketProtocol : String := "com.gitlab.beeper.discord"

/-- Character-level model of Go's `strings.Split(s, ",")`: split on every
comma, keeping empty fields, with `[""]` for the empty string. -/
def splitCommaChars : List Char → List (List Char)
  | [] => [[]]
  | c :: rest =>
    if c = ',' then [] :: splitCommaChars rest
    else
      match splitCommaChars rest with
      | [] => [[c]]
      | g :: gs => (c :: g) :: gs

/-- The whitespace set of Go's `unicode.IsSpace` restricted to Latin-1
(the subprotocol entries in play are ASCII). -/
def isSpaceChar (c : Char) : Bool :=
  c = ' ' || c = '\t' || c = '\n' || c = '\x0b' || c = '\x0c' || c = '\r'
    || c = Char.ofNat 0x85 || c = Char.ofNat 0xA0

/-- Character-level model of Go's `strings.TrimSpace`. -/
def trimSpaceChars (s : List Char) : List Char :=
  ((s.dropWhile isSpaceChar).reverse.dropWhile isSpaceChar).reverse

def goTrimSpace (s : String) : String := ⟨trimSpaceChars s.data⟩

/-- Go's `strings.HasPrefix`. -/
def hasPrefixStr (s p : String) : Bool := p.data.isPrefixOf s.data

/-- Go's `strings.HasSuffix`. -/
def hasSuffixStr (s p : String) : Bool := p.data.isSuffixOf s.data

/-- Go's `len` on the ASCII strings sliced here (bytes = characters). -/
def strLen (s : String) : Nat := s.data.length

/-- Go's slice `s[n:]` on the ASCII strings sliced here. -/
def dropStr (s : String) (n : Nat) : String := ⟨s.data.drop n⟩

def goSplitComma (s : String) : List String :=
  (splitCommaChars s.data).map (fun l => ⟨l⟩)

/-- The subprotocol scan of `authMiddleware` (provisioning.go:107-115):
trim each comma-separated entry, and on the first entry carrying the
protocol-identifier dash prefix take its suffix as the auth value and
break; otherwise the auth value is left as it was. -/
def findProtoToken : List String → String → String
  | [], auth => auth
  | part :: rest, auth =>
    let t := goTrimSpace part
    if hasPrefixStr t (SecWebSocketProtocol ++ "-") then
      dropStr t (strLen (SecWebSocketProtocol ++ "-"))
    else findProtoToken rest auth

/-- The auth-value resolution of `authMiddleware` (provisioning.go:103-118):
with an empty Authorization header on a path ending in "/login", consult
the Sec-WebSocket-Protocol entries; otherwise strip a "Bearer " prefix
when present. -/
def resolveAuth (path authHeader swProtoHeader : String) : String :=
  if authHeader = "" ∧ hasSuffixStr path "/login" = true then
    findProtoToken (goSplitComma swProtoHeader) authHeader
  else if hasPrefixStr authHeader "Bearer " then
    dropStr authHeader (strLen "Bearer ")
  else authHeader

/-- Observable result of the credential gate: the gate's own response
(status, body) when it rejects, and whether the caller-identity lookup
ran and the wrapped handler was invoked. -/
structure GateResult where
  status : Option Nat
  errorMsg : Option String
  errcode : Option String
  userLookup : Bool
  handlerInvoked : Bool
deriving DecidableEq

/-- The credential gate of `authMiddleware` (provisioning.go:101-139):
resolve the auth value, reject with 403 `M_FORBIDDEN` on mismatch with
the shared secret before any user lookup, and otherwise look up the
caller identity and invoke the wrapped handler. -/
def authMiddleware (secret path authHeader swProtoHeader : String) : GateResult :=
  let auth := resolveAuth path authHeader swProtoHeader
  if auth ≠ secret then
    ⟨some 403, some "Invalid auth token", some "M_FORBIDDEN", false, false⟩
  else ⟨none, none, none, true, true⟩

/-- C5: whenever the supplied secret (bearer-header or
subprotocol-embedded form, any path) does not exactly match the
configured shared secret, the gate responds 403 with errcode
`M_FORBIDDEN` and performs no further work: no caller-identity lookup
and no call into the wrapped handler. -/
theorem c5_mismatch_forbidden (secret path authHeader swProtoHeader : String)
    (h : resolveAuth path authHeader swProtoHeader ≠ secret) :
    authMiddleware secret path authHeader swProtoHeader =
      ⟨some 403, some "Invalid auth token", some "M_FORBIDDEN", false, false⟩ := by
  simp [authMiddleware, h]

theorem c5_witness :
    (authMiddleware "secret" "/p/ping" "Bearer bad" "" =
      ⟨some 403, some "Invalid auth token", some "M_FORBIDDEN", false, false⟩) ∧
      (authMiddleware "secret" "/p/login" ""
          "com.gitlab.beeper.discord, com.gitlab.beeper.discord-bad" =
        ⟨some 403, some "Invalid auth token", some "M_FORBIDDEN", false, false⟩) :=
  ⟨c5_mismatch_forbidden "secret" "/p/ping" "Bearer bad" "" (by decide),
    c5_mismatch_forbidden "secret" "/p/login" ""
      "com.gitlab.beeper.discord, com.gitlab.beeper.discord-bad" (by decide)⟩

/-- C10: the subprotocol-embedded token is consulted only when the
Authorization header is empty and the path ends in "/login" (elsewhere
the gate's result does not depend on the subprotocol header), and an
Authorization header exactly equal to the shared secret without the
"Bearer " prefix is accepted on every route. -/
theorem c10_header_forms :
    (∀ secret path authHeader sw1 sw2 : String,
        (authHeader ≠ "" ∨ hasSuffixStr path "/login" = false) →
        authMiddleware secret path authHeader sw1 =
          authMiddleware secret path authHeader sw2) ∧
      (∀ secret path authHeader sw : String,
        authHeader ≠ "" → hasPrefixStr authHeader "Bearer " = false →
        authHeader = secret →
        authMiddleware secret path authHeader sw = ⟨none, none, none, true, true⟩) := by
  constructor
  · intro secret path ah sw1 sw2 h
    have hc : ¬(ah = "" ∧ hasSuffixStr path "/login" = true) := by
      rcases h with h | h
      · exact fun hc => h hc.1
      · exact fun hc => Bool.false_ne_true (h ▸ hc.2)
    simp [authMiddleware, resolveAuth, hc]
  · intro secret path ah sw hne hb he
    subst he
    have hc : ¬(ah = "" ∧ hasSuffixStr path "/login" = true) := fun hc => hne hc.1
    simp [authMiddleware, resolveAuth, hc, hb]

theorem c10_witness :
    (authMiddleware "sec" "/p/ping" "sec" "a" =
      authMiddleware "sec" "/p/ping" "sec" "b") ∧
      (authMiddleware "sec" "/p/login" "sec" "junk" =
        ⟨none, none, none, true, true⟩) :=
  ⟨c10_header_forms.1 "sec" "/p/ping" "sec" "a" "b" (Or.inl (by decide)),
    c10_header_forms.2 "sec" "/p/login" "sec" "junk" (by decide) (by decide) rfl⟩

theorem c8_witness :
    (logout ⟨false, false, some "boom", id, id, id⟩
        ⟨true, false, false, "", false⟩ (some "false") =
      ⟨500, .err ("Unknown error while logging out: " ++ "boom") "boom",
        ⟨true, false, false, "", false⟩, 0, 0, 1⟩) ∧
      (logout ⟨false, false, some "boom", id, id, id⟩
          ⟨true, false, false, "", false⟩ none =
        ⟨200, .ok "Logged out successfully.",
          ⟨true, false, false, "", false⟩, 0, 0, 1⟩) :=
  ⟨(c8_logout_force ⟨false, false, some "boom", id, id, id⟩
      ⟨true, false, false, "", false⟩ (some "false") "boom" rfl rfl rfl).1 (by decide),
    (c8_logout_force ⟨false, false, some "boom", id, id, id⟩
      ⟨true, false, false, "", false⟩ none "boom" rfl rfl rfl).2.1 (by decide)⟩

end Provisioning
